import Mathlib

/-!
Shallow embedding of the goqu statement builders (INSERT, UPDATE, DELETE,
TRUNCATE) and the machinery they use, together with proofs of the spec's
claims about them.

The four dataset builder types and their methods are translated directly
from the Go source (`truncate.go` / `insert.go` / `update.go` / `delete.go`
style files).  Collaborators of those files that are not part of the given
source (the `exp` clause records, the `sb.SQLBuilder`, the dialect registry
and the dialect renderers, the `SelectDataset`) are modelled from the spec;
each such definition carries a doc comment saying so.

Go pointer mutation is made explicit: a method that in Go writes through
its receiver (or through an argument pointer) is embedded as a function
returning the post-call state of that object, and the mutator-application
harness `applyMutator` returns the receiver's post-call state alongside the
method's result, so that "the receiver is unchanged" is a provable equation.
Go `panic` is embedded as `Except.error`.
-/

namespace Goqu

/-- Errors produced by the builders.  Go compares `error` values for
identity; the named sentinel errors of the source are constructors, a
`fmt.Errorf` dialect mismatch carries the two dialect names, and
user-supplied errors (fed to `SetError`) carry an opaque message. -/
inductive GoError where
  | unsupportedIntoType
  | unsupportedUpdateTableType
  | badFromArgument
  | dialectMismatch (insertDialect : String) (selectDialect : String)
  | user (msg : String)
deriving DecidableEq

/-- A dialect, addressed by its registered name.  The source only ever
compares dialects and asks them to render, so the name identifies one. -/
structure SQLDialect where
  name : String
deriving DecidableEq

/-- Dialect names registered at startup: the reserved default plus the
`postgres` dialect registered by the source's `init`. -/
def registeredDialects : List String := ["default", "postgres"]

/-- Modelled from the spec: dialect registry lookup
`GetDialect(name) -> Dialect`, falling back to a reserved default entry
when the name is unregistered. -/
def GetDialect (name : String) : SQLDialect :=
  if name ∈ registeredDialects then ⟨name⟩ else ⟨"default"⟩

/-- Modelled from the spec: the expression value hierarchy, reduced to the
variants the claims exercise — identifiers (what `ParseIdentifier`
produces), literal passthrough fragments, and a catch-all for the other
immutable expression kinds. -/
inductive Expression where
  | ident (name : String)
  | literal (sqlText : String)
  | other (tag : String)
deriving DecidableEq

/-- A Go `interface\x7b\x7d` argument as the mutators receive it: a string, an
already-built expression, or some unsupported kind (an `Int`, or anything
else, standing for "any other argument type"). -/
inductive GoValue where
  | str (s : String)
  | expr (e : Expression)
  | int (n : Int)
  | other (tag : String)
deriving DecidableEq

/-- Modelled from the spec: `exp.ParseIdentifier` turns a plain name into
an identifier expression. -/
def ParseIdentifier (s : String) : Expression := .ident s

/-- Modelled from the spec: `exp.NewColumnListExpression` turns each
argument into an expression node (strings become identifiers, expressions
pass through). -/
def NewColumnListExpression (vals : List GoValue) : List Expression :=
  vals.map fun v =>
    match v with
    | .str s => .ident s
    | .expr e => e
    | .int n => .literal (toString n)
    | .other t => .other t

/-- Modelled from the spec: an ordered-column specification, opaque to the
claims. -/
structure OrderedExpression where
  tag : String
deriving DecidableEq

/-- Modelled from the spec: a common-table-expression descriptor
(recursive flag, name, source sub-statement). -/
structure CommonTableExpression where
  recursive : Bool
  name : String
  subquery : Expression
deriving DecidableEq

/-- `exp.NewCommonTableExpression`. -/
def NewCommonTableExpression (r : Bool) (n : String) (sub : Expression) :
    CommonTableExpression :=
  ⟨r, n, sub⟩

/-- Modelled from the spec: a conflict/upsert descriptor, opaque to the
claims. -/
structure ConflictExpression where
  tag : String
deriving DecidableEq

/-- The three-valued prepared-mode flag of the builders
("use dialect default" / "force literal" / "force prepared").
Modelled from the spec's description of the prepared flag; the Go zero
value is the no-preference state. -/
inductive Prepared where
  | noPreference
  | isFalse
  | isTrue
deriving DecidableEq

/-- `prepared.Bool()`: only the force-prepared state reports `true`. -/
def Prepared.Bool : Prepared → Bool
  | .isTrue => true
  | _ => false

/-- `preparedFromBool`. -/
def preparedFromBool (b : Bool) : Prepared :=
  if b then .isTrue else .isFalse

/-- Modelled from the spec: the `sb.SQLBuilder` sticky-error accumulator —
an append-only text buffer, an ordered parameter sequence, and an optional
sticky error. -/
structure SQLBuilder where
  isPrepared : Bool
  sqlText : String
  args : List GoValue
  err : Option GoError
deriving DecidableEq

/-- `sb.NewSQLBuilder`: a fresh, empty, unpoisoned builder. -/
def NewSQLBuilder (p : Bool) : SQLBuilder :=
  ⟨p, "", [], none⟩

/-- Modelled from the spec: `set-error(err)` records the first error only. -/
def SQLBuilder.SetError (b : SQLBuilder) (e : GoError) : SQLBuilder :=
  if b.err = none then { b with err := some e } else b

/-- Modelled from the spec: `write(text)` appends a raw SQL fragment; once
an error is recorded all writes are no-ops. -/
def SQLBuilder.write (b : SQLBuilder) (s : String) : SQLBuilder :=
  if b.err = none then { b with sqlText := b.sqlText ++ s } else b

/-- Modelled from the spec: `to-result()` — if an error was ever recorded
it is returned with no text and no parameters, otherwise the accumulated
text and parameters are returned. -/
def SQLBuilder.ToSQL (b : SQLBuilder) : String × List GoValue × Option GoError :=
  match b.err with
  | some e => ("", [], some e)
  | none => (b.sqlText, b.args, none)

/-- Render an expression node to text (spec-modelled; identifiers are
quoted, literals pass through verbatim). -/
def renderExpression : Expression → String
  | .ident n => "\"" ++ n ++ "\""
  | .literal s => s
  | .other t => t

/-- Render a column list. -/
def renderExpressionList (es : List Expression) : String :=
  String.intercalate ", " (es.map renderExpression)

/-! ### TRUNCATE: clause record and dataset -/

/-- Modelled from the spec: the TRUNCATE options — CASCADE flag, RESTRICT
flag, IDENTITY option string. -/
structure TruncateOptions where
  cascade : Bool
  restrict : Bool
  identity : String
deriving DecidableEq

/-- Modelled from the spec: `exp.TruncateClauses` — target table list plus
options. -/
structure TruncateClauses where
  table : List Expression
  options : TruncateOptions
deriving DecidableEq

/-- `exp.NewTruncateClauses`: the empty clause record. -/
def NewTruncateClauses : TruncateClauses :=
  ⟨[], ⟨false, false, ""⟩⟩

/-- `TruncateClauses.SetTable`: replaces the table list. -/
def TruncateClauses.SetTable (c : TruncateClauses) (t : List Expression) :
    TruncateClauses :=
  { c with table := t }

/-- `TruncateClauses.Options`. -/
def TruncateClauses.Options (c : TruncateClauses) : TruncateOptions :=
  c.options

/-- `TruncateClauses.SetOptions`: replaces the options record. -/
def TruncateClauses.SetOptions (c : TruncateClauses) (o : TruncateOptions) :
    TruncateClauses :=
  { c with options := o }

/-- Modelled from the spec: the default dialect's TRUNCATE renderer,
emitting the table name, a CASCADE fragment, a RESTRICT fragment, and the
configured identity fragment in that fixed order. -/
def renderTruncateSQL (c : TruncateClauses) : String :=
  "TRUNCATE " ++ renderExpressionList c.table ++
    (if c.options.cascade then " CASCADE" else "") ++
    (if c.options.restrict then " RESTRICT" else "") ++
    (if c.options.identity = "" then "" else " " ++ c.options.identity ++ " IDENTITY")

/-- Modelled from the spec: the dialect's TRUNCATE rendering entry point,
writing the complete statement into the supplied builder. -/
def SQLDialect.ToTruncateSQL (_d : SQLDialect) (buf : SQLBuilder)
    (c : TruncateClauses) : SQLBuilder :=
  buf.write (renderTruncateSQL c)

/-- `TruncateDataset` (from the source): dialect, clauses, prepared flag,
query factory, sticky error.  The query factory is opaque to every claim. -/
structure TruncateDataset where
  dialect : SQLDialect
  clauses : TruncateClauses
  isPrepared : Prepared
  queryFactory : Option Unit
  err : Option GoError
deriving DecidableEq

/-- `newTruncateDataset` (from the source). -/
def newTruncateDataset (d : String) (queryFactory : Option Unit) :
    TruncateDataset :=
  { dialect := GetDialect d
    clauses := NewTruncateClauses
    isPrepared := .noPreference
    queryFactory := queryFactory
    err := none }

/-- `TruncateDataset.copy` (from the source): a fresh value with the given
clauses and every other field taken from the receiver. -/
def TruncateDataset.copy (td : TruncateDataset) (clauses : TruncateClauses) :
    TruncateDataset :=
  { dialect := td.dialect
    clauses := clauses
    isPrepared := td.isPrepared
    queryFactory := td.queryFactory
    err := td.err }

/-- `TruncateDataset.GetClauses`. -/
def TruncateDataset.GetClauses (td : TruncateDataset) : TruncateClauses :=
  td.clauses

/-- `TruncateDataset.Dialect`. -/
def TruncateDataset.Dialect (td : TruncateDataset) : SQLDialect :=
  td.dialect

/-- `TruncateDataset.IsPrepared`. -/
def TruncateDataset.IsPrepared (td : TruncateDataset) : Bool :=
  td.isPrepared.Bool

/-- `TruncateDataset.Error`. -/
def TruncateDataset.Error (td : TruncateDataset) : Option GoError :=
  td.err

/-- `TruncateDataset.WithDialect` (from the source). -/
def TruncateDataset.WithDialect (td : TruncateDataset) (dl : String) :
    TruncateDataset :=
  { td.copy td.GetClauses with dialect := GetDialect dl }

/-- `TruncateDataset.Prepared` (from the source). -/
def TruncateDataset.Prepared (td : TruncateDataset) (p : Bool) :
    TruncateDataset :=
  { td.copy td.clauses with isPrepared := preparedFromBool p }

/-- `TruncateDataset.SetDialect` (from the source). -/
def TruncateDataset.SetDialect (td : TruncateDataset) (d : SQLDialect) :
    TruncateDataset :=
  { td.copy td.GetClauses with dialect := d }

/-- `TruncateDataset.Clone` (from the source): `td.copy td.clauses`. -/
def TruncateDataset.Clone (td : TruncateDataset) : TruncateDataset :=
  td.copy td.clauses

/-- `TruncateDataset.Table` (from the source). -/
def TruncateDataset.Table (td : TruncateDataset) (table : List GoValue) :
    TruncateDataset :=
  td.copy (td.clauses.SetTable (NewColumnListExpression table))

/-- `Truncate` (from the source). -/
def Truncate (table : List GoValue) : TruncateDataset :=
  (newTruncateDataset "default" none).Table table

/-- `TruncateDataset.Cascade` (from the source). -/
def TruncateDataset.Cascade (td : TruncateDataset) : TruncateDataset :=
  td.copy (td.clauses.SetOptions { td.clauses.Options with cascade := true })

/-- `TruncateDataset.NoCascade` (from the source). -/
def TruncateDataset.NoCascade (td : TruncateDataset) : TruncateDataset :=
  td.copy (td.clauses.SetOptions { td.clauses.Options with cascade := false })

/-- `TruncateDataset.Restrict` (from the source). -/
def TruncateDataset.Restrict (td : TruncateDataset) : TruncateDataset :=
  td.copy (td.clauses.SetOptions { td.clauses.Options with restrict := true })

/-- `TruncateDataset.NoRestrict` (from the source). -/
def TruncateDataset.NoRestrict (td : TruncateDataset) : TruncateDataset :=
  td.copy (td.clauses.SetOptions { td.clauses.Options with restrict := false })

/-- `TruncateDataset.Identity` (from the source). -/
def TruncateDataset.Identity (td : TruncateDataset) (s : String) :
    TruncateDataset :=
  td.copy (td.clauses.SetOptions { td.clauses.Options with identity := s })

/-- `TruncateDataset.SetError` (from the source): assigns through the
receiver pointer when no error is recorded yet and returns the receiver
itself; the returned value is the post-call state of the receiver. -/
def TruncateDataset.SetError (td : TruncateDataset) (e : Option GoError) :
    TruncateDataset :=
  if td.err = none then { td with err := e } else td

/-- `TruncateDataset.truncateSQLBuilder` (from the source): open a fresh
builder, short-circuit into the sticky error if present, otherwise let the
dialect render the clauses. -/
def TruncateDataset.truncateSQLBuilder (td : TruncateDataset) : SQLBuilder :=
  let buf := NewSQLBuilder td.isPrepared.Bool
  match td.err with
  | some e => buf.SetError e
  | none => td.dialect.ToTruncateSQL buf td.clauses

/-- `TruncateDataset.ToSQL` (from the source). -/
def TruncateDataset.ToSQL (td : TruncateDataset) :
    String × List GoValue × Option GoError :=
  td.truncateSQLBuilder.ToSQL

/-- `TruncateDataset.MustToSQL` (from the source): panics (here:
`Except.error`) when the builder reports an error, otherwise returns the
text and parameters. -/
def TruncateDataset.MustToSQL (td : TruncateDataset) :
    Except GoError (String × List GoValue) :=
  match td.truncateSQLBuilder.ToSQL with
  | (_, _, some e) => .error e
  | (s, p, none) => .ok (s, p)

/-! ### INSERT: row sources, clause record and dataset -/

/-- Modelled from the spec: the `SelectDataset` as far as the INSERT
nesting rules observe it — its dialect (mutable through a pointer, made
explicit below) and an opaque rendering of its own clauses. -/
structure SelectDataset where
  dialect : SQLDialect
  query : String
deriving DecidableEq

/-- The nested fragment a SELECT-like statement contributes when rendered
under a given dialect (spec-modelled). -/
def renderSelectUnder (d : SQLDialect) (query : String) : String :=
  "(" ++ query ++ " under " ++ d.name ++ ")"

/-- A `SelectDataset` renders itself under its own dialect. -/
def SelectDataset.renderSQL (s : SelectDataset) : String :=
  renderSelectUnder s.dialect s.query

/-- An `exp.AppendableExpression` row source handed to `FromQuery`: either
a `*SelectDataset` (which the source inspects with a type assertion) or
some other appendable expression. -/
inductive RowSource where
  | selectDS (s : SelectDataset)
  | otherAppendable (tag : String)
deriving DecidableEq

/-- Render a row source (spec-modelled). -/
def renderRowSource : RowSource → String
  | .selectDS s => s.renderSQL
  | .otherAppendable t => t

/-- Modelled from the spec: `exp.InsertClauses` — common-table-expressions,
INTO target, column list, literal value rows, mapped rows, a nested row
source, RETURNING list, conflict descriptor, and alias. -/
structure InsertClauses where
  commonTables : List CommonTableExpression
  into : Option Expression
  cols : Option (List Expression)
  vals : Option (List (List GoValue))
  rows : Option (List GoValue)
  fromClause : Option RowSource
  returningCols : Option (List Expression)
  onConflict : Option ConflictExpression
  aliasCl : Option Expression
deriving DecidableEq

/-- `exp.NewInsertClauses`: the empty clause record. -/
def NewInsertClauses : InsertClauses :=
  ⟨[], none, none, none, none, none, none, none, none⟩

/-- `InsertClauses.CommonTablesAppend`: appends, preserving call order. -/
def InsertClauses.CommonTablesAppend (c : InsertClauses)
    (cte : CommonTableExpression) : InsertClauses :=
  { c with commonTables := c.commonTables ++ [cte] }

/-- `InsertClauses.SetInto`. -/
def InsertClauses.SetInto (c : InsertClauses) (e : Expression) : InsertClauses :=
  { c with into := some e }

/-- `InsertClauses.SetCols` (a `nil` argument clears the field). -/
def InsertClauses.SetCols (c : InsertClauses) (cs : Option (List Expression)) :
    InsertClauses :=
  { c with cols := cs }

/-- `InsertClauses.ColsAppend`: appends to the column list, initializing it
when absent. -/
def InsertClauses.ColsAppend (c : InsertClauses) (cs : List Expression) :
    InsertClauses :=
  { c with cols := some ((c.cols.getD []) ++ cs) }

/-- `InsertClauses.SetVals` (a `nil` argument clears the field). -/
def InsertClauses.SetVals (c : InsertClauses)
    (vs : Option (List (List GoValue))) : InsertClauses :=
  { c with vals := vs }

/-- `InsertClauses.ValsAppend`: appends value rows in call order. -/
def InsertClauses.ValsAppend (c : InsertClauses) (vs : List (List GoValue)) :
    InsertClauses :=
  { c with vals := some ((c.vals.getD []) ++ vs) }

/-- `InsertClauses.SetRows` (a `nil` argument clears the field). -/
def InsertClauses.SetRows (c : InsertClauses) (rs : Option (List GoValue)) :
    InsertClauses :=
  { c with rows := rs }

/-- `InsertClauses.SetFrom`. -/
def InsertClauses.SetFrom (c : InsertClauses) (f : Option RowSource) :
    InsertClauses :=
  { c with fromClause := f }

/-- `InsertClauses.SetReturning`. -/
def InsertClauses.SetReturning (c : InsertClauses) (rs : List Expression) :
    InsertClauses :=
  { c with returningCols := some rs }

/-- `InsertClauses.SetOnConflict` (a `nil` argument clears the field). -/
def InsertClauses.SetOnConflict (c : InsertClauses)
    (o : Option ConflictExpression) : InsertClauses :=
  { c with onConflict := o }

/-- `InsertClauses.SetAlias`. -/
def InsertClauses.SetAlias (c : InsertClauses) (a : Expression) : InsertClauses :=
  { c with aliasCl := some a }

/-- `InsertClauses.HasReturning`. -/
def InsertClauses.HasReturning (c : InsertClauses) : Bool :=
  c.returningCols.isSome

/-- Modelled from the spec: the default dialect's INSERT renderer; the row
source, when present, is rendered by the nested statement itself (hence
under the nested statement's own dialect), taking precedence over literal
rows. -/
def renderInsertSQL (c : InsertClauses) : String :=
  "INSERT INTO " ++
    (match c.into with
     | some e => renderExpression e
     | none => "") ++
    (match c.cols with
     | some cs => " (" ++ renderExpressionList cs ++ ")"
     | none => "") ++
    (match c.fromClause with
     | some rs => " " ++ renderRowSource rs
     | none =>
        " VALUES " ++ toString ((c.vals.getD []).length)
          ++ "x" ++ toString ((c.rows.getD []).length))

/-- Modelled from the spec: the dialect's INSERT rendering entry point. -/
def SQLDialect.ToInsertSQL (_d : SQLDialect) (buf : SQLBuilder)
    (c : InsertClauses) : SQLBuilder :=
  buf.write (renderInsertSQL c)

/-- `InsertDataset` (from the source). -/
structure InsertDataset where
  dialect : SQLDialect
  clauses : InsertClauses
  isPrepared : Prepared
  queryFactory : Option Unit
  err : Option GoError
deriving DecidableEq

/-- `newInsertDataset` (from the source). -/
def newInsertDataset (d : String) (queryFactory : Option Unit) : InsertDataset :=
  { dialect := GetDialect d
    clauses := NewInsertClauses
    isPrepared := .noPreference
    queryFactory := queryFactory
    err := none }

/-- `InsertDataset.copy` (from the source). -/
def InsertDataset.copy (idd : InsertDataset) (clauses : InsertClauses) :
    InsertDataset :=
  { dialect := idd.dialect
    clauses := clauses
    isPrepared := idd.isPrepared
    queryFactory := idd.queryFactory
    err := idd.err }

/-- `InsertDataset.GetClauses`. -/
def InsertDataset.GetClauses (idd : InsertDataset) : InsertClauses :=
  idd.clauses

/-- `InsertDataset.Dialect`. -/
def InsertDataset.Dialect (idd : InsertDataset) : SQLDialect :=
  idd.dialect

/-- `InsertDataset.IsPrepared`. -/
def InsertDataset.IsPrepared (idd : InsertDataset) : Bool :=
  idd.isPrepared.Bool

/-- `InsertDataset.Error`. -/
def InsertDataset.Error (idd : InsertDataset) : Option GoError :=
  idd.err

/-- `InsertDataset.Prepared` (from the source). -/
def InsertDataset.Prepared (idd : InsertDataset) (p : Bool) : InsertDataset :=
  { idd.copy idd.clauses with isPrepared := preparedFromBool p }

/-- `InsertDataset.WithDialect` (from the source). -/
def InsertDataset.WithDialect (idd : InsertDataset) (dl : String) :
    InsertDataset :=
  { idd.copy idd.GetClauses with dialect := GetDialect dl }

/-- `InsertDataset.SetDialect` (from the source). -/
def InsertDataset.SetDialect (idd : InsertDataset) (d : SQLDialect) :
    InsertDataset :=
  { idd.copy idd.GetClauses with dialect := d }

/-- `InsertDataset.Clone` (from the source). -/
def InsertDataset.Clone (idd : InsertDataset) : InsertDataset :=
  idd.copy idd.clauses

/-- `InsertDataset.With` (from the source). -/
def InsertDataset.With (idd : InsertDataset) (name : String)
    (subquery : Expression) : InsertDataset :=
  idd.copy (idd.clauses.CommonTablesAppend
    (NewCommonTableExpression false name subquery))

/-- `InsertDataset.WithRecursive` (from the source). -/
def InsertDataset.WithRecursive (idd : InsertDataset) (name : String)
    (subquery : Expression) : InsertDataset :=
  idd.copy (idd.clauses.CommonTablesAppend
    (NewCommonTableExpression true name subquery))

/-- `InsertDataset.Into` (from the source): an expression or a string is
stored, anything else panics with `ErrUnsupportedIntoType`. -/
def InsertDataset.Into (idd : InsertDataset) (into : GoValue) :
    Except GoError InsertDataset :=
  match into with
  | .expr t => .ok (idd.copy (idd.clauses.SetInto t))
  | .str t => .ok (idd.copy (idd.clauses.SetInto (ParseIdentifier t)))
  | _ => .error .unsupportedIntoType

/-- `Insert` (from the source). -/
def Insert (table : GoValue) : Except GoError InsertDataset :=
  (newInsertDataset "default" none).Into table

/-- `InsertDataset.Cols` (from the source). -/
def InsertDataset.Cols (idd : InsertDataset) (cols : List GoValue) :
    InsertDataset :=
  idd.copy (idd.clauses.SetCols (some (NewColumnListExpression cols)))

/-- `InsertDataset.ClearCols` (from the source): `SetCols(nil)`. -/
def InsertDataset.ClearCols (idd : InsertDataset) : InsertDataset :=
  idd.copy (idd.clauses.SetCols none)

/-- `InsertDataset.ColsAppend` (from the source). -/
def InsertDataset.ColsAppend (idd : InsertDataset) (cols : List GoValue) :
    InsertDataset :=
  idd.copy (idd.clauses.ColsAppend (NewColumnListExpression cols))

/-- `InsertDataset.FromQuery` (from the source): when the argument is a
`*SelectDataset` whose dialect is non-default and differs from the
receiver's, panic with the dialect-incompatibility error; otherwise write
the receiver's dialect through the argument pointer and store the (shared)
argument as the row source.  The second component of a successful result
is the post-call state of the caller's argument. -/
def InsertDataset.FromQuery (idd : InsertDataset) (fr : RowSource) :
    Except GoError (InsertDataset × RowSource) :=
  match fr with
  | .selectDS sds =>
      if sds.dialect ≠ GetDialect "default" ∧ idd.Dialect ≠ sds.dialect then
        .error (.dialectMismatch idd.dialect.name sds.dialect.name)
      else
        let sds2 : SelectDataset := { sds with dialect := idd.dialect }
        .ok (idd.copy (idd.clauses.SetFrom (some (.selectDS sds2))), .selectDS sds2)
  | .otherAppendable t =>
      .ok (idd.copy (idd.clauses.SetFrom (some (.otherAppendable t))),
           .otherAppendable t)

/-- `InsertDataset.Vals` (from the source): appends value rows. -/
def InsertDataset.Vals (idd : InsertDataset) (vals : List (List GoValue)) :
    InsertDataset :=
  idd.copy (idd.clauses.ValsAppend vals)

/-- `InsertDataset.ClearVals` (from the source): `SetVals(nil)`. -/
def InsertDataset.ClearVals (idd : InsertDataset) : InsertDataset :=
  idd.copy (idd.clauses.SetVals none)

/-- `InsertDataset.Rows` (from the source). -/
def InsertDataset.Rows (idd : InsertDataset) (rows : List GoValue) :
    InsertDataset :=
  idd.copy (idd.clauses.SetRows (some rows))

/-- `InsertDataset.ClearRows` (from the source): `SetRows(nil)`. -/
def InsertDataset.ClearRows (idd : InsertDataset) : InsertDataset :=
  idd.copy (idd.clauses.SetRows none)

/-- `InsertDataset.Returning` (from the source). -/
def InsertDataset.Returning (idd : InsertDataset) (returning : List GoValue) :
    InsertDataset :=
  idd.copy (idd.clauses.SetReturning (NewColumnListExpression returning))

/-- `InsertDataset.OnConflict` (from the source); the argument is a
nilable interface. -/
def InsertDataset.OnConflict (idd : InsertDataset)
    (conflict : Option ConflictExpression) : InsertDataset :=
  idd.copy (idd.clauses.SetOnConflict conflict)

/-- `InsertDataset.ClearOnConflict` (from the source): `OnConflict(nil)`. -/
def InsertDataset.ClearOnConflict (idd : InsertDataset) : InsertDataset :=
  idd.OnConflict none

/-- `InsertDataset.As` (from the source). -/
def InsertDataset.As (idd : InsertDataset) (a : String) : InsertDataset :=
  idd.copy (idd.clauses.SetAlias (.ident a))

/-- `InsertDataset.SetError` (from the source): assigns through the
receiver pointer when no error is recorded yet and returns the receiver
itself; the returned value is the post-call state of the receiver. -/
def InsertDataset.SetError (idd : InsertDataset) (e : Option GoError) :
    InsertDataset :=
  if idd.err = none then { idd with err := e } else idd

/-- `InsertDataset.ReturnsColumns` (from the source). -/
def InsertDataset.ReturnsColumns (idd : InsertDataset) : Bool :=
  idd.clauses.HasReturning

/-- `InsertDataset.insertSQLBuilder` (from the source). -/
def InsertDataset.insertSQLBuilder (idd : InsertDataset) : SQLBuilder :=
  let buf := NewSQLBuilder idd.isPrepared.Bool
  match idd.err with
  | some e => buf.SetError e
  | none => idd.dialect.ToInsertSQL buf idd.clauses

/-- `InsertDataset.ToSQL` (from the source). -/
def InsertDataset.ToSQL (idd : InsertDataset) :
    String × List GoValue × Option GoError :=
  idd.insertSQLBuilder.ToSQL

/-- `InsertDataset.MustToSQL` (from the source). -/
def InsertDataset.MustToSQL (idd : InsertDataset) :
    Except GoError (String × List GoValue) :=
  match idd.insertSQLBuilder.ToSQL with
  | (_, _, some e) => .error e
  | (s, p, none) => .ok (s, p)

/-! ### UPDATE: clause record and dataset -/

/-- The `LIMIT` clause value: a number (`SetLimit(uint)`) or the `ALL`
sentinel (`SetLimit(L("ALL"))`). -/
inductive LimitVal where
  | num (n : Nat)
  | all
deriving DecidableEq

/-- Modelled from the spec: `exp.UpdateClauses`. -/
structure UpdateClauses where
  commonTables : List CommonTableExpression
  table : Option Expression
  setValues : Option GoValue
  fromClause : Option (List Expression)
  whereClause : List Expression
  order : Option (List OrderedExpression)
  limit : Option LimitVal
  returningCols : Option (List Expression)
deriving DecidableEq

/-- `exp.NewUpdateClauses`: the empty clause record. -/
def NewUpdateClauses : UpdateClauses :=
  ⟨[], none, none, none, [], none, none, none⟩

/-- `UpdateClauses.CommonTablesAppend`. -/
def UpdateClauses.CommonTablesAppend (c : UpdateClauses)
    (cte : CommonTableExpression) : UpdateClauses :=
  { c with commonTables := c.commonTables ++ [cte] }

/-- `UpdateClauses.SetTable`. -/
def UpdateClauses.SetTable (c : UpdateClauses) (t : Expression) : UpdateClauses :=
  { c with table := some t }

/-- `UpdateClauses.SetSetValues`. -/
def UpdateClauses.SetSetValues (c : UpdateClauses) (v : GoValue) : UpdateClauses :=
  { c with setValues := some v }

/-- `UpdateClauses.SetFrom`. -/
def UpdateClauses.SetFrom (c : UpdateClauses) (ts : List Expression) :
    UpdateClauses :=
  { c with fromClause := some ts }

/-- `UpdateClauses.WhereAppend`: appends filter expressions (an implicit
conjunction) in call order. -/
def UpdateClauses.WhereAppend (c : UpdateClauses) (es : List Expression) :
    UpdateClauses :=
  { c with whereClause := c.whereClause ++ es }

/-- `UpdateClauses.ClearWhere`. -/
def UpdateClauses.ClearWhere (c : UpdateClauses) : UpdateClauses :=
  { c with whereClause := [] }

/-- `UpdateClauses.SetOrder`: replaces the ordering. -/
def UpdateClauses.SetOrder (c : UpdateClauses) (os : List OrderedExpression) :
    UpdateClauses :=
  { c with order := some os }

/-- `UpdateClauses.OrderAppend`. -/
def UpdateClauses.OrderAppend (c : UpdateClauses) (os : List OrderedExpression) :
    UpdateClauses :=
  { c with order := some ((c.order.getD []) ++ os) }

/-- `UpdateClauses.OrderPrepend`. -/
def UpdateClauses.OrderPrepend (c : UpdateClauses) (os : List OrderedExpression) :
    UpdateClauses :=
  { c with order := some (os ++ (c.order.getD [])) }

/-- `UpdateClauses.ClearOrder`. -/
def UpdateClauses.ClearOrder (c : UpdateClauses) : UpdateClauses :=
  { c with order := none }

/-- `UpdateClauses.SetLimit`. -/
def UpdateClauses.SetLimit (c : UpdateClauses) (l : LimitVal) : UpdateClauses :=
  { c with limit := some l }

/-- `UpdateClauses.ClearLimit`. -/
def UpdateClauses.ClearLimit (c : UpdateClauses) : UpdateClauses :=
  { c with limit := none }

/-- `UpdateClauses.SetReturning`. -/
def UpdateClauses.SetReturning (c : UpdateClauses) (rs : List Expression) :
    UpdateClauses :=
  { c with returningCols := some rs }

/-- `UpdateClauses.HasReturning`. -/
def UpdateClauses.HasReturning (c : UpdateClauses) : Bool :=
  c.returningCols.isSome

/-- Modelled from the spec: the default dialect's UPDATE renderer. -/
def renderUpdateSQL (c : UpdateClauses) : String :=
  "UPDATE " ++
    (match c.table with
     | some t => renderExpression t
     | none => "") ++
    " SET <" ++ toString c.whereClause.length ++ " filters, " ++
    toString ((c.order.getD []).length) ++ " orderings" ++
    (match c.limit with
     | some (.num n) => ", limit " ++ toString n
     | some .all => ", limit ALL"
     | none => "") ++ ">"

/-- Modelled from the spec: the dialect's UPDATE rendering entry point. -/
def SQLDialect.ToUpdateSQL (_d : SQLDialect) (buf : SQLBuilder)
    (c : UpdateClauses) : SQLBuilder :=
  buf.write (renderUpdateSQL c)

/-- `UpdateDataset` (from the source). -/
structure UpdateDataset where
  dialect : SQLDialect
  clauses : UpdateClauses
  isPrepared : Prepared
  queryFactory : Option Unit
  err : Option GoError
deriving DecidableEq

/-- `newUpdateDataset` (from the source). -/
def newUpdateDataset (d : String) (queryFactory : Option Unit) : UpdateDataset :=
  { dialect := GetDialect d
    clauses := NewUpdateClauses
    isPrepared := .noPreference
    queryFactory := queryFactory
    err := none }

/-- `UpdateDataset.copy` (from the source). -/
def UpdateDataset.copy (ud : UpdateDataset) (clauses : UpdateClauses) :
    UpdateDataset :=
  { dialect := ud.dialect
    clauses := clauses
    isPrepared := ud.isPrepared
    queryFactory := ud.queryFactory
    err := ud.err }

/-- `UpdateDataset.GetClauses`. -/
def UpdateDataset.GetClauses (ud : UpdateDataset) : UpdateClauses :=
  ud.clauses

/-- `UpdateDataset.Dialect`. -/
def UpdateDataset.Dialect (ud : UpdateDataset) : SQLDialect :=
  ud.dialect

/-- `UpdateDataset.IsPrepared`. -/
def UpdateDataset.IsPrepared (ud : UpdateDataset) : Bool :=
  ud.isPrepared.Bool

/-- `UpdateDataset.Error`. -/
def UpdateDataset.Error (ud : UpdateDataset) : Option GoError :=
  ud.err

/-- `UpdateDataset.Prepared` (from the source). -/
def UpdateDataset.Prepared (ud : UpdateDataset) (p : Bool) : UpdateDataset :=
  { ud.copy ud.clauses with isPrepared := preparedFromBool p }

/-- `UpdateDataset.WithDialect` (from the source). -/
def UpdateDataset.WithDialect (ud : UpdateDataset) (dl : String) : UpdateDataset :=
  { ud.copy ud.GetClauses with dialect := GetDialect dl }

/-- `UpdateDataset.SetDialect` (from the source). -/
def UpdateDataset.SetDialect (ud : UpdateDataset) (d : SQLDialect) : UpdateDataset :=
  { ud.copy ud.GetClauses with dialect := d }

/-- `UpdateDataset.Clone` (from the source). -/
def UpdateDataset.Clone (ud : UpdateDataset) : UpdateDataset :=
  ud.copy ud.clauses

/-- `UpdateDataset.With` (from the source). -/
def UpdateDataset.With (ud : UpdateDataset) (name : String)
    (subquery : Expression) : UpdateDataset :=
  ud.copy (ud.clauses.CommonTablesAppend
    (NewCommonTableExpression false name subquery))

/-- `UpdateDataset.WithRecursive` (from the source). -/
def UpdateDataset.WithRecursive (ud : UpdateDataset) (name : String)
    (subquery : Expression) : UpdateDataset :=
  ud.copy (ud.clauses.CommonTablesAppend
    (NewCommonTableExpression true name subquery))

/-- `UpdateDataset.Table` (from the source): an expression or a string is
stored, anything else panics with `ErrUnsupportedUpdateTableType`. -/
def UpdateDataset.Table (ud : UpdateDataset) (table : GoValue) :
    Except GoError UpdateDataset :=
  match table with
  | .expr t => .ok (ud.copy (ud.clauses.SetTable t))
  | .str t => .ok (ud.copy (ud.clauses.SetTable (ParseIdentifier t)))
  | _ => .error .unsupportedUpdateTableType

/-- `Update` (from the source). -/
def Update (table : GoValue) : Except GoError UpdateDataset :=
  (newUpdateDataset "default" none).Table table

/-- `UpdateDataset.Set` (from the source). -/
def UpdateDataset.Set (ud : UpdateDataset) (values : GoValue) : UpdateDataset :=
  ud.copy (ud.clauses.SetSetValues values)

/-- `UpdateDataset.From` (from the source). -/
def UpdateDataset.From (ud : UpdateDataset) (tables : List GoValue) :
    UpdateDataset :=
  ud.copy (ud.clauses.SetFrom (NewColumnListExpression tables))

/-- `UpdateDataset.Where` (from the source). -/
def UpdateDataset.Where (ud : UpdateDataset) (es : List Expression) :
    UpdateDataset :=
  ud.copy (ud.clauses.WhereAppend es)

/-- `UpdateDataset.ClearWhere` (from the source). -/
def UpdateDataset.ClearWhere (ud : UpdateDataset) : UpdateDataset :=
  ud.copy ud.clauses.ClearWhere

/-- `UpdateDataset.Order` (from the source). -/
def UpdateDataset.Order (ud : UpdateDataset) (os : List OrderedExpression) :
    UpdateDataset :=
  ud.copy (ud.clauses.SetOrder os)

/-- `UpdateDataset.OrderAppend` (from the source). -/
def UpdateDataset.OrderAppend (ud : UpdateDataset) (os : List OrderedExpression) :
    UpdateDataset :=
  ud.copy (ud.clauses.OrderAppend os)

/-- `UpdateDataset.OrderPrepend` (from the source). -/
def UpdateDataset.OrderPrepend (ud : UpdateDataset) (os : List OrderedExpression) :
    UpdateDataset :=
  ud.copy (ud.clauses.OrderPrepend os)

/-- `UpdateDataset.ClearOrder` (from the source). -/
def UpdateDataset.ClearOrder (ud : UpdateDataset) : UpdateDataset :=
  ud.copy ud.clauses.ClearOrder

/-- `UpdateDataset.Limit` (from the source): a positive limit is stored,
zero clears the clause. -/
def UpdateDataset.Limit (ud : UpdateDataset) (limit : Nat) : UpdateDataset :=
  if limit > 0 then ud.copy (ud.clauses.SetLimit (.num limit))
  else ud.copy ud.clauses.ClearLimit

/-- `UpdateDataset.LimitAll` (from the source). -/
def UpdateDataset.LimitAll (ud : UpdateDataset) : UpdateDataset :=
  ud.copy (ud.clauses.SetLimit .all)

/-- `UpdateDataset.ClearLimit` (from the source). -/
def UpdateDataset.ClearLimit (ud : UpdateDataset) : UpdateDataset :=
  ud.copy ud.clauses.ClearLimit

/-- `UpdateDataset.Returning` (from the source). -/
def UpdateDataset.Returning (ud : UpdateDataset) (returning : List GoValue) :
    UpdateDataset :=
  ud.copy (ud.clauses.SetReturning (NewColumnListExpression returning))

/-- `UpdateDataset.SetError` (from the source): assigns through the
receiver pointer when no error is recorded yet and returns the receiver. -/
def UpdateDataset.SetError (ud : UpdateDataset) (e : Option GoError) :
    UpdateDataset :=
  if ud.err = none then { ud with err := e } else ud

/-- `UpdateDataset.ReturnsColumns` (from the source). -/
def UpdateDataset.ReturnsColumns (ud : UpdateDataset) : Bool :=
  ud.clauses.HasReturning

/-- `UpdateDataset.updateSQLBuilder` (from the source). -/
def UpdateDataset.updateSQLBuilder (ud : UpdateDataset) : SQLBuilder :=
  let buf := NewSQLBuilder ud.isPrepared.Bool
  match ud.err with
  | some e => buf.SetError e
  | none => ud.dialect.ToUpdateSQL buf ud.clauses

/-- `UpdateDataset.ToSQL` (from the source). -/
def UpdateDataset.ToSQL (ud : UpdateDataset) :
    String × List GoValue × Option GoError :=
  ud.updateSQLBuilder.ToSQL

/-- `UpdateDataset.MustToSQL` (from the source). -/
def UpdateDataset.MustToSQL (ud : UpdateDataset) :
    Except GoError (String × List GoValue) :=
  match ud.updateSQLBuilder.ToSQL with
  | (_, _, some e) => .error e
  | (s, p, none) => .ok (s, p)

/-! ### DELETE: clause record and dataset -/

/-- Modelled from the spec: `exp.DeleteClauses`. -/
structure DeleteClauses where
  commonTables : List CommonTableExpression
  fromClause : Option Expression
  whereClause : List Expression
  order : Option (List OrderedExpression)
  limit : Option LimitVal
  returningCols : Option (List Expression)
deriving DecidableEq

/-- `exp.NewDeleteClauses`: the empty clause record. -/
def NewDeleteClauses : DeleteClauses :=
  ⟨[], none, [], none, none, none⟩

/-- `DeleteClauses.CommonTablesAppend`. -/
def DeleteClauses.CommonTablesAppend (c : DeleteClauses)
    (cte : CommonTableExpression) : DeleteClauses :=
  { c with commonTables := c.commonTables ++ [cte] }

/-- `DeleteClauses.SetFrom`. -/
def DeleteClauses.SetFrom (c : DeleteClauses) (t : Expression) : DeleteClauses :=
  { c with fromClause := some t }

/-- `DeleteClauses.WhereAppend`. -/
def DeleteClauses.WhereAppend (c : DeleteClauses) (es : List Expression) :
    DeleteClauses :=
  { c with whereClause := c.whereClause ++ es }

/-- `DeleteClauses.ClearWhere`. -/
def DeleteClauses.ClearWhere (c : DeleteClauses) : DeleteClauses :=
  { c with whereClause := [] }

/-- `DeleteClauses.SetOrder`. -/
def DeleteClauses.SetOrder (c : DeleteClauses) (os : List OrderedExpression) :
    DeleteClauses :=
  { c with order := some os }

/-- `DeleteClauses.OrderAppend`. -/
def DeleteClauses.OrderAppend (c : DeleteClauses) (os : List OrderedExpression) :
    DeleteClauses :=
  { c with order := some ((c.order.getD []) ++ os) }

/-- `DeleteClauses.OrderPrepend`. -/
def DeleteClauses.OrderPrepend (c : DeleteClauses) (os : List OrderedExpression) :
    DeleteClauses :=
  { c with order := some (os ++ (c.order.getD [])) }

/-- `DeleteClauses.ClearOrder`. -/
def DeleteClauses.ClearOrder (c : DeleteClauses) : DeleteClauses :=
  { c with order := none }

/-- `DeleteClauses.SetLimit`. -/
def DeleteClauses.SetLimit (c : DeleteClauses) (l : LimitVal) : DeleteClauses :=
  { c with limit := some l }

/-- `DeleteClauses.ClearLimit`. -/
def DeleteClauses.ClearLimit (c : DeleteClauses) : DeleteClauses :=
  { c with limit := none }

/-- `DeleteClauses.SetReturning`. -/
def DeleteClauses.SetReturning (c : DeleteClauses) (rs : List Expression) :
    DeleteClauses :=
  { c with returningCols := some rs }

/-- `DeleteClauses.HasReturning`. -/
def DeleteClauses.HasReturning (c : DeleteClauses) : Bool :=
  c.returningCols.isSome

/-- Modelled from the spec: the default dialect's DELETE renderer. -/
def renderDeleteSQL (c : DeleteClauses) : String :=
  "DELETE FROM " ++
    (match c.fromClause with
     | some t => renderExpression t
     | none => "") ++
    " <" ++ toString c.whereClause.length ++ " filters" ++
    (match c.limit with
     | some (.num n) => ", limit " ++ toString n
     | some .all => ", limit ALL"
     | none => "") ++ ">"

/-- Modelled from the spec: the dialect's DELETE rendering entry point. -/
def SQLDialect.ToDeleteSQL (_d : SQLDialect) (buf : SQLBuilder)
    (c : DeleteClauses) : SQLBuilder :=
  buf.write (renderDeleteSQL c)

/-- `DeleteDataset` (from the source). -/
structure DeleteDataset where
  dialect : SQLDialect
  clauses : DeleteClauses
  isPrepared : Prepared
  queryFactory : Option Unit
  err : Option GoError
deriving DecidableEq

/-- `newDeleteDataset` (from the source). -/
def newDeleteDataset (d : String) (queryFactory : Option Unit) : DeleteDataset :=
  { dialect := GetDialect d
    clauses := NewDeleteClauses
    isPrepared := .noPreference
    queryFactory := queryFactory
    err := none }

/-- `DeleteDataset.copy` (from the source). -/
def DeleteDataset.copy (dd : DeleteDataset) (clauses : DeleteClauses) :
    DeleteDataset :=
  { dialect := dd.dialect
    clauses := clauses
    isPrepared := dd.isPrepared
    queryFactory := dd.queryFactory
    err := dd.err }

/-- `DeleteDataset.GetClauses`. -/
def DeleteDataset.GetClauses (dd : DeleteDataset) : DeleteClauses :=
  dd.clauses

/-- `DeleteDataset.Dialect`. -/
def DeleteDataset.Dialect (dd : DeleteDataset) : SQLDialect :=
  dd.dialect

/-- `DeleteDataset.IsPrepared`. -/
def DeleteDataset.IsPrepared (dd : DeleteDataset) : Bool :=
  dd.isPrepared.Bool

/-- `DeleteDataset.Error`. -/
def DeleteDataset.Error (dd : DeleteDataset) : Option GoError :=
  dd.err

/-- `DeleteDataset.Prepared` (from the source). -/
def DeleteDataset.Prepared (dd : DeleteDataset) (p : Bool) : DeleteDataset :=
  { dd.copy dd.clauses with isPrepared := preparedFromBool p }

/-- `DeleteDataset.WithDialect` (from the source). -/
def DeleteDataset.WithDialect (dd : DeleteDataset) (dl : String) : DeleteDataset :=
  { dd.copy dd.GetClauses with dialect := GetDialect dl }

/-- `DeleteDataset.SetDialect` (from the source). -/
def DeleteDataset.SetDialect (dd : DeleteDataset) (d : SQLDialect) : DeleteDataset :=
  { dd.copy dd.GetClauses with dialect := d }

/-- `DeleteDataset.Clone` (from the source). -/
def DeleteDataset.Clone (dd : DeleteDataset) : DeleteDataset :=
  dd.copy dd.clauses

/-- `DeleteDataset.With` (from the source). -/
def DeleteDataset.With (dd : DeleteDataset) (name : String)
    (subquery : Expression) : DeleteDataset :=
  dd.copy (dd.clauses.CommonTablesAppend
    (NewCommonTableExpression false name subquery))

/-- `DeleteDataset.WithRecursive` (from the source). -/
def DeleteDataset.WithRecursive (dd : DeleteDataset) (name : String)
    (subquery : Expression) : DeleteDataset :=
  dd.copy (dd.clauses.CommonTablesAppend
    (NewCommonTableExpression true name subquery))

/-- `DeleteDataset.From` (from the source): only an identifier expression
or a string is stored; anything else panics with `ErrBadFromArgument`. -/
def DeleteDataset.From (dd : DeleteDataset) (table : GoValue) :
    Except GoError DeleteDataset :=
  match table with
  | .expr (.ident t) => .ok (dd.copy (dd.clauses.SetFrom (.ident t)))
  | .str t => .ok (dd.copy (dd.clauses.SetFrom (ParseIdentifier t)))
  | _ => .error .badFromArgument

/-- `Delete` (from the source). -/
def Delete (table : GoValue) : Except GoError DeleteDataset :=
  (newDeleteDataset "default" none).From table

/-- `DeleteDataset.Where` (from the source). -/
def DeleteDataset.Where (dd : DeleteDataset) (es : List Expression) :
    DeleteDataset :=
  dd.copy (dd.clauses.WhereAppend es)

/-- `DeleteDataset.ClearWhere` (from the source). -/
def DeleteDataset.ClearWhere (dd : DeleteDataset) : DeleteDataset :=
  dd.copy dd.clauses.ClearWhere

/-- `DeleteDataset.Order` (from the source). -/
def DeleteDataset.Order (dd : DeleteDataset) (os : List OrderedExpression) :
    DeleteDataset :=
  dd.copy (dd.clauses.SetOrder os)

/-- `DeleteDataset.OrderAppend` (from the source). -/
def DeleteDataset.OrderAppend (dd : DeleteDataset) (os : List OrderedExpression) :
    DeleteDataset :=
  dd.copy (dd.clauses.OrderAppend os)

/-- `DeleteDataset.OrderPrepend` (from the source). -/
def DeleteDataset.OrderPrepend (dd : DeleteDataset) (os : List OrderedExpression) :
    DeleteDataset :=
  dd.copy (dd.clauses.OrderPrepend os)

/-- `DeleteDataset.ClearOrder` (from the source). -/
def DeleteDataset.ClearOrder (dd : DeleteDataset) : DeleteDataset :=
  dd.copy dd.clauses.ClearOrder

/-- `DeleteDataset.Limit` (from the source): a positive limit is stored,
zero clears the clause. -/
def DeleteDataset.Limit (dd : DeleteDataset) (limit : Nat) : DeleteDataset :=
  if limit > 0 then dd.copy (dd.clauses.SetLimit (.num limit))
  else dd.copy dd.clauses.ClearLimit

/-- `DeleteDataset.LimitAll` (from the source). -/
def DeleteDataset.LimitAll (dd : DeleteDataset) : DeleteDataset :=
  dd.copy (dd.clauses.SetLimit .all)

/-- `DeleteDataset.ClearLimit` (from the source). -/
def DeleteDataset.ClearLimit (dd : DeleteDataset) : DeleteDataset :=
  dd.copy dd.clauses.ClearLimit

/-- `DeleteDataset.Returning` (from the source). -/
def DeleteDataset.Returning (dd : DeleteDataset) (returning : List GoValue) :
    DeleteDataset :=
  dd.copy (dd.clauses.SetReturning (NewColumnListExpression returning))

/-- `DeleteDataset.SetError` (from the source): assigns through the
receiver pointer when no error is recorded yet and returns the receiver. -/
def DeleteDataset.SetError (dd : DeleteDataset) (e : Option GoError) :
    DeleteDataset :=
  if dd.err = none then { dd with err := e } else dd

/-- `DeleteDataset.ReturnsColumns` (from the source). -/
def DeleteDataset.ReturnsColumns (dd : DeleteDataset) : Bool :=
  dd.clauses.HasReturning

/-- `DeleteDataset.deleteSQLBuilder` (from the source). -/
def DeleteDataset.deleteSQLBuilder (dd : DeleteDataset) : SQLBuilder :=
  let buf := NewSQLBuilder dd.isPrepared.Bool
  match dd.err with
  | some e => buf.SetError e
  | none => dd.dialect.ToDeleteSQL buf dd.clauses

/-- `DeleteDataset.ToSQL` (from the source). -/
def DeleteDataset.ToSQL (dd : DeleteDataset) :
    String × List GoValue × Option GoError :=
  dd.deleteSQLBuilder.ToSQL

/-- `DeleteDataset.MustToSQL` (from the source). -/
def DeleteDataset.MustToSQL (dd : DeleteDataset) :
    Except GoError (String × List GoValue) :=
  match dd.deleteSQLBuilder.ToSQL with
  | (_, _, some e) => .error e
  | (s, p, none) => .ok (s, p)

/-! ### The mutator surfaces, as data

To quantify over "every mutator `m`" each statement kind's exposed mutator
surface is reified as an inductive type, and `applyMutator` runs one
mutator call the way Go executes it, returning the post-call state of the
receiver together with the method's result (`Except.error` for a panic).
Methods of the source that never write through the receiver leave its
state untouched; `SetError` writes through the receiver and returns it. -/

/-- One TRUNCATE mutator call with its argument. -/
inductive TruncateMutator where
  | withDialect (dl : String)
  | prepared (p : Bool)
  | setDialect (d : SQLDialect)
  | table (ts : List GoValue)
  | cascade
  | noCascade
  | restrict
  | noRestrict
  | identity (s : String)
  | setError (e : Option GoError)
deriving DecidableEq

/-- Whether a TRUNCATE mutator is the `SetError` call. -/
def TruncateMutator.isSetError : TruncateMutator → Bool
  | .setError _ => true
  | _ => false

/-- Run one TRUNCATE mutator call: (receiver state after the call, result). -/
def TruncateDataset.applyMutator (td : TruncateDataset) :
    TruncateMutator → TruncateDataset × Except GoError TruncateDataset
  | .withDialect dl => (td, .ok (td.WithDialect dl))
  | .prepared p => (td, .ok (td.Prepared p))
  | .setDialect d => (td, .ok (td.SetDialect d))
  | .table ts => (td, .ok (td.Table ts))
  | .cascade => (td, .ok td.Cascade)
  | .noCascade => (td, .ok td.NoCascade)
  | .restrict => (td, .ok td.Restrict)
  | .noRestrict => (td, .ok td.NoRestrict)
  | .identity s => (td, .ok (td.Identity s))
  | .setError e => ((td.SetError e), .ok (td.SetError e))

/-- One INSERT mutator call with its argument. -/
inductive InsertMutator where
  | prepared (p : Bool)
  | withDialect (dl : String)
  | setDialect (d : SQLDialect)
  | withCTE (name : String) (subquery : Expression)
  | withRecursive (name : String) (subquery : Expression)
  | into (v : GoValue)
  | cols (cs : List GoValue)
  | clearCols
  | colsAppend (cs : List GoValue)
  | fromQuery (fr : RowSource)
  | vals (vs : List (List GoValue))
  | clearVals
  | rows (rs : List GoValue)
  | clearRows
  | returning (rs : List GoValue)
  | onConflict (c : Option ConflictExpression)
  | clearOnConflict
  | asAlias (s : String)
  | setError (e : Option GoError)
deriving DecidableEq

/-- Whether an INSERT mutator is the `SetError` call. -/
def InsertMutator.isSetError : InsertMutator → Bool
  | .setError _ => true
  | _ => false

/-- Run one INSERT mutator call: (receiver state after the call, result). -/
def InsertDataset.applyMutator (idd : InsertDataset) :
    InsertMutator → InsertDataset × Except GoError InsertDataset
  | .prepared p => (idd, .ok (idd.Prepared p))
  | .withDialect dl => (idd, .ok (idd.WithDialect dl))
  | .setDialect d => (idd, .ok (idd.SetDialect d))
  | .withCTE n sub => (idd, .ok (idd.With n sub))
  | .withRecursive n sub => (idd, .ok (idd.WithRecursive n sub))
  | .into v => (idd, idd.Into v)
  | .cols cs => (idd, .ok (idd.Cols cs))
  | .clearCols => (idd, .ok idd.ClearCols)
  | .colsAppend cs => (idd, .ok (idd.ColsAppend cs))
  | .fromQuery fr =>
      (idd, match idd.FromQuery fr with
            | .ok r => .ok r.1
            | .error e => .error e)
  | .vals vs => (idd, .ok (idd.Vals vs))
  | .clearVals => (idd, .ok idd.ClearVals)
  | .rows rs => (idd, .ok (idd.Rows rs))
  | .clearRows => (idd, .ok idd.ClearRows)
  | .returning rs => (idd, .ok (idd.Returning rs))
  | .onConflict c => (idd, .ok (idd.OnConflict c))
  | .clearOnConflict => (idd, .ok idd.ClearOnConflict)
  | .asAlias s => (idd, .ok (idd.As s))
  | .setError e => ((idd.SetError e), .ok (idd.SetError e))

/-- One UPDATE mutator call with its argument. -/
inductive UpdateMutator where
  | prepared (p : Bool)
  | withDialect (dl : String)
  | setDialect (d : SQLDialect)
  | withCTE (name : String) (subquery : Expression)
  | withRecursive (name : String) (subquery : Expression)
  | table (v : GoValue)
  | set (v : GoValue)
  | fromTables (ts : List GoValue)
  | whereE (es : List Expression)
  | clearWhere
  | order (os : List OrderedExpression)
  | orderAppend (os : List OrderedExpression)
  | orderPrepend (os : List OrderedExpression)
  | clearOrder
  | limit (n : Nat)
  | limitAll
  | clearLimit
  | returning (rs : List GoValue)
  | setError (e : Option GoError)
deriving DecidableEq

/-- Whether an UPDATE mutator is the `SetError` call. -/
def UpdateMutator.isSetError : UpdateMutator → Bool
  | .setError _ => true
  | _ => false

/-- Run one UPDATE mutator call: (receiver state after the call, result). -/
def UpdateDataset.applyMutator (ud : UpdateDataset) :
    UpdateMutator → UpdateDataset × Except GoError UpdateDataset
  | .prepared p => (ud, .ok (ud.Prepared p))
  | .withDialect dl => (ud, .ok (ud.WithDialect dl))
  | .setDialect d => (ud, .ok (ud.SetDialect d))
  | .withCTE n sub => (ud, .ok (ud.With n sub))
  | .withRecursive n sub => (ud, .ok (ud.WithRecursive n sub))
  | .table v => (ud, ud.Table v)
  | .set v => (ud, .ok (ud.Set v))
  | .fromTables ts => (ud, .ok (ud.From ts))
  | .whereE es => (ud, .ok (ud.Where es))
  | .clearWhere => (ud, .ok ud.ClearWhere)
  | .order os => (ud, .ok (ud.Order os))
  | .orderAppend os => (ud, .ok (ud.OrderAppend os))
  | .orderPrepend os => (ud, .ok (ud.OrderPrepend os))
  | .clearOrder => (ud, .ok ud.ClearOrder)
  | .limit n => (ud, .ok (ud.Limit n))
  | .limitAll => (ud, .ok ud.LimitAll)
  | .clearLimit => (ud, .ok ud.ClearLimit)
  | .returning rs => (ud, .ok (ud.Returning rs))
  | .setError e => ((ud.SetError e), .ok (ud.SetError e))

/-- One DELETE mutator call with its argument. -/
inductive DeleteMutator where
  | prepared (p : Bool)
  | withDialect (dl : String)
  | setDialect (d : SQLDialect)
  | withCTE (name : String) (subquery : Expression)
  | withRecursive (name : String) (subquery : Expression)
  | fromTable (v : GoValue)
  | whereE (es : List Expression)
  | clearWhere
  | order (os : List OrderedExpression)
  | orderAppend (os : List OrderedExpression)
  | orderPrepend (os : List OrderedExpression)
  | clearOrder
  | limit (n : Nat)
  | limitAll
  | clearLimit
  | returning (rs : List GoValue)
  | setError (e : Option GoError)
deriving DecidableEq

/-- Whether a DELETE mutator is the `SetError` call. -/
def DeleteMutator.isSetError : DeleteMutator → Bool
  | .setError _ => true
  | _ => false

/-- Run one DELETE mutator call: (receiver state after the call, result). -/
def DeleteDataset.applyMutator (dd : DeleteDataset) :
    DeleteMutator → DeleteDataset × Except GoError DeleteDataset
  | .prepared p => (dd, .ok (dd.Prepared p))
  | .withDialect dl => (dd, .ok (dd.WithDialect dl))
  | .setDialect d => (dd, .ok (dd.SetDialect d))
  | .withCTE n sub => (dd, .ok (dd.With n sub))
  | .withRecursive n sub => (dd, .ok (dd.WithRecursive n sub))
  | .fromTable v => (dd, dd.From v)
  | .whereE es => (dd, .ok (dd.Where es))
  | .clearWhere => (dd, .ok dd.ClearWhere)
  | .order os => (dd, .ok (dd.Order os))
  | .orderAppend os => (dd, .ok (dd.OrderAppend os))
  | .orderPrepend os => (dd, .ok (dd.OrderPrepend os))
  | .clearOrder => (dd, .ok dd.ClearOrder)
  | .limit n => (dd, .ok (dd.Limit n))
  | .limitAll => (dd, .ok dd.LimitAll)
  | .clearLimit => (dd, .ok dd.ClearLimit)
  | .returning rs => (dd, .ok (dd.Returning rs))
  | .setError e => ((dd.SetError e), .ok (dd.SetError e))

/-! ### Helper lemmas -/

/-- A successful `Into` returns a copy carrying the receiver's error. -/
theorem InsertDataset.Into_ok_err (idd : InsertDataset) (v : GoValue)
    (r : InsertDataset) (h : idd.Into v = .ok r) : r.err = idd.err := by
  cases v <;> simp only [InsertDataset.Into] at h <;>
    first
      | exact Except.noConfusion h
      | (injection h with h; subst h; rfl)

/-- A successful `FromQuery` returns a copy carrying the receiver's error. -/
theorem InsertDataset.FromQuery_ok_err (idd : InsertDataset) (fr : RowSource)
    (pr : InsertDataset × RowSource) (h : idd.FromQuery fr = .ok pr) :
    pr.1.err = idd.err := by
  cases fr with
  | selectDS s =>
      simp only [InsertDataset.FromQuery] at h
      split at h
      · exact Except.noConfusion h
      · injection h with h; subst h; rfl
  | otherAppendable t =>
      simp only [InsertDataset.FromQuery] at h
      injection h with h; subst h; rfl

/-- A successful `Table` returns a copy carrying the receiver's error. -/
theorem UpdateDataset.Table_ok_err (ud : UpdateDataset) (v : GoValue)
    (r : UpdateDataset) (h : ud.Table v = .ok r) : r.err = ud.err := by
  cases v <;> simp only [UpdateDataset.Table] at h <;>
    first
      | exact Except.noConfusion h
      | (injection h with h; subst h; rfl)

/-- A successful `From` returns a copy carrying the receiver's error. -/
theorem DeleteDataset.From_ok_err (dd : DeleteDataset) (v : GoValue)
    (r : DeleteDataset) (h : dd.From v = .ok r) : r.err = dd.err := by
  cases v with
  | expr e =>
      cases e <;> simp only [DeleteDataset.From] at h <;>
        first
          | exact Except.noConfusion h
          | (injection h with h; subst h; rfl)
  | str s =>
      simp only [DeleteDataset.From] at h
      injection h with h; subst h; rfl
  | int n => exact Except.noConfusion h
  | other t => exact Except.noConfusion h

/-- `SetError` on an already-erred TRUNCATE builder is the identity. -/
theorem TruncateDataset.setError_keeps_err_trunc (td : TruncateDataset) (e : GoError)
    (x : Option GoError) (he : td.err = some e) : td.SetError x = td := by
  simp [TruncateDataset.SetError, he]

/-- `SetError` on an already-erred INSERT builder is the identity. -/
theorem InsertDataset.setError_keeps_err_ins (idd : InsertDataset) (e : GoError)
    (x : Option GoError) (he : idd.err = some e) : idd.SetError x = idd := by
  simp [InsertDataset.SetError, he]

/-- `SetError` on an already-erred UPDATE builder is the identity. -/
theorem UpdateDataset.setError_keeps_err_upd (ud : UpdateDataset) (e : GoError)
    (x : Option GoError) (he : ud.err = some e) : ud.SetError x = ud := by
  simp [UpdateDataset.SetError, he]

/-- `SetError` on an already-erred DELETE builder is the identity. -/
theorem DeleteDataset.setError_keeps_err_del (dd : DeleteDataset) (e : GoError)
    (x : Option GoError) (he : dd.err = some e) : dd.SetError x = dd := by
  simp [DeleteDataset.SetError, he]

/-- Any mutator call on an erred TRUNCATE builder that returns normally
returns a value carrying that same error. -/
theorem TruncateDataset.applyMutator_ok_err_trunc (td : TruncateDataset) (e : GoError)
    (m : TruncateMutator) (r : TruncateDataset) (he : td.err = some e)
    (h : (td.applyMutator m).2 = .ok r) : r.err = some e := by
  cases m
  case setError x =>
      simp only [TruncateDataset.applyMutator] at h
      injection h with h
      subst h
      rw [td.setError_keeps_err_trunc e x he]
      exact he
  all_goals
    simp only [TruncateDataset.applyMutator] at h
  all_goals (injection h with h; subst h; exact he)

/-- Any mutator call on an erred INSERT builder that returns normally
returns a value carrying that same error. -/
theorem InsertDataset.applyMutator_ok_err_ins (idd : InsertDataset) (e : GoError)
    (m : InsertMutator) (r : InsertDataset) (he : idd.err = some e)
    (h : (idd.applyMutator m).2 = .ok r) : r.err = some e := by
  cases m
  case setError x =>
      simp only [InsertDataset.applyMutator] at h
      injection h with h
      subst h
      rw [idd.setError_keeps_err_ins e x he]
      exact he
  case into v =>
      simp only [InsertDataset.applyMutator] at h
      rw [idd.Into_ok_err v r h]
      exact he
  case fromQuery fr =>
      simp only [InsertDataset.applyMutator] at h
      cases hq : idd.FromQuery fr with
      | ok pr =>
          rw [hq] at h
          injection h with h
          subst h
          rw [idd.FromQuery_ok_err fr pr hq]
          exact he
      | error e2 =>
          rw [hq] at h
          exact Except.noConfusion h
  all_goals
    simp only [InsertDataset.applyMutator] at h
  all_goals (injection h with h; subst h; exact he)

/-- Any mutator call on an erred UPDATE builder that returns normally
returns a value carrying that same error. -/
theorem UpdateDataset.applyMutator_ok_err_upd (ud : UpdateDataset) (e : GoError)
    (m : UpdateMutator) (r : UpdateDataset) (he : ud.err = some e)
    (h : (ud.applyMutator m).2 = .ok r) : r.err = some e := by
  cases m
  case setError x =>
      simp only [UpdateDataset.applyMutator] at h
      injection h with h
      subst h
      rw [ud.setError_keeps_err_upd e x he]
      exact he
  case table v =>
      simp only [UpdateDataset.applyMutator] at h
      rw [ud.Table_ok_err v r h]
      exact he
  case limit n =>
      simp only [UpdateDataset.applyMutator] at h
      injection h with h
      subst h
      simp only [UpdateDataset.Limit]
      split <;> exact he
  all_goals
    simp only [UpdateDataset.applyMutator] at h
  all_goals (injection h with h; subst h; exact he)

/-- Any mutator call on an erred DELETE builder that returns normally
returns a value carrying that same error. -/
theorem DeleteDataset.applyMutator_ok_err_del (dd : DeleteDataset) (e : GoError)
    (m : DeleteMutator) (r : DeleteDataset) (he : dd.err = some e)
    (h : (dd.applyMutator m).2 = .ok r) : r.err = some e := by
  cases m
  case setError x =>
      simp only [DeleteDataset.applyMutator] at h
      injection h with h
      subst h
      rw [dd.setError_keeps_err_del e x he]
      exact he
  case fromTable v =>
      simp only [DeleteDataset.applyMutator] at h
      rw [dd.From_ok_err v r h]
      exact he
  case limit n =>
      simp only [DeleteDataset.applyMutator] at h
      injection h with h
      subst h
      simp only [DeleteDataset.Limit]
      split <;> exact he
  all_goals
    simp only [DeleteDataset.applyMutator] at h
  all_goals (injection h with h; subst h; exact he)

/-- An erred TRUNCATE builder short-circuits: the SQL builder is the fresh
builder poisoned with the sticky error (the dialect renderer is never
reached) and `ToSQL` reports the error with no text and no parameters. -/
theorem TruncateDataset.toSQL_of_err_trunc (td : TruncateDataset) (e : GoError)
    (he : td.err = some e) :
    td.truncateSQLBuilder = (NewSQLBuilder td.isPrepared.Bool).SetError e
      ∧ td.ToSQL = ("", [], some e) := by
  constructor
  · simp [TruncateDataset.truncateSQLBuilder, he]
  · simp [TruncateDataset.ToSQL, TruncateDataset.truncateSQLBuilder, he,
      NewSQLBuilder, SQLBuilder.SetError, SQLBuilder.ToSQL]

/-- An erred INSERT builder short-circuits. -/
theorem InsertDataset.toSQL_of_err_ins (idd : InsertDataset) (e : GoError)
    (he : idd.err = some e) :
    idd.insertSQLBuilder = (NewSQLBuilder idd.isPrepared.Bool).SetError e
      ∧ idd.ToSQL = ("", [], some e) := by
  constructor
  · simp [InsertDataset.insertSQLBuilder, he]
  · simp [InsertDataset.ToSQL, InsertDataset.insertSQLBuilder, he,
      NewSQLBuilder, SQLBuilder.SetError, SQLBuilder.ToSQL]

/-- An erred UPDATE builder short-circuits. -/
theorem UpdateDataset.toSQL_of_err_upd (ud : UpdateDataset) (e : GoError)
    (he : ud.err = some e) :
    ud.updateSQLBuilder = (NewSQLBuilder ud.isPrepared.Bool).SetError e
      ∧ ud.ToSQL = ("", [], some e) := by
  constructor
  · simp [UpdateDataset.updateSQLBuilder, he]
  · simp [UpdateDataset.ToSQL, UpdateDataset.updateSQLBuilder, he,
      NewSQLBuilder, SQLBuilder.SetError, SQLBuilder.ToSQL]

/-- An erred DELETE builder short-circuits. -/
theorem DeleteDataset.toSQL_of_err_del (dd : DeleteDataset) (e : GoError)
    (he : dd.err = some e) :
    dd.deleteSQLBuilder = (NewSQLBuilder dd.isPrepared.Bool).SetError e
      ∧ dd.ToSQL = ("", [], some e) := by
  constructor
  · simp [DeleteDataset.deleteSQLBuilder, he]
  · simp [DeleteDataset.ToSQL, DeleteDataset.deleteSQLBuilder, he,
      NewSQLBuilder, SQLBuilder.SetError, SQLBuilder.ToSQL]

/-! ### Claims -/

/-- C1 (counterexample): the claim includes `SetError` among the mutators
that return a new value and leave the receiver unchanged, but `SetError`
on an error-free builder writes the error through the receiver pointer and
returns that very receiver: after `b.SetError(e)` the receiver `b` itself
has changed, its `ToSQL` now reports the error, and the returned value is
the receiver, not a new one. -/
theorem C1_counterexample :
    (((Truncate [.str "users"]).applyMutator
        (.setError (some (.user "boom")))).1 ≠ Truncate [.str "users"])
    ∧ ((((Truncate [.str "users"]).applyMutator
        (.setError (some (.user "boom")))).1).ToSQL ≠ (Truncate [.str "users"]).ToSQL)
    ∧ (((Truncate [.str "users"]).applyMutator (.setError (some (.user "boom")))).2
        = .ok (((Truncate [.str "users"]).applyMutator
            (.setError (some (.user "boom")))).1)) := by
  refine ⟨by decide, by decide, rfl⟩

/-- C1 (amended): for every dataset builder `b` of any of the four
statement kinds and every exposed mutator `m` other than `SetError`,
calling `b.m(x)` leaves the receiver `b` itself completely unchanged, so
the text, parameters, and error produced by `b.ToSQL()` are the same
whether evaluated before or after the call; `SetError` instead mutates the
receiver in place and returns it. -/
theorem C1_immutability_besides_setError :
    (∀ (td : TruncateDataset) (m : TruncateMutator), m.isSetError = false →
        (td.applyMutator m).1 = td ∧ (td.applyMutator m).1.ToSQL = td.ToSQL)
    ∧ (∀ (idd : InsertDataset) (m : InsertMutator), m.isSetError = false →
        (idd.applyMutator m).1 = idd ∧ (idd.applyMutator m).1.ToSQL = idd.ToSQL)
    ∧ (∀ (ud : UpdateDataset) (m : UpdateMutator), m.isSetError = false →
        (ud.applyMutator m).1 = ud ∧ (ud.applyMutator m).1.ToSQL = ud.ToSQL)
    ∧ (∀ (dd : DeleteDataset) (m : DeleteMutator), m.isSetError = false →
        (dd.applyMutator m).1 = dd ∧ (dd.applyMutator m).1.ToSQL = dd.ToSQL) := by
  refine ⟨fun td m hm => ?_, fun idd m hm => ?_, fun ud m hm => ?_, fun dd m hm => ?_⟩ <;>
    cases m <;>
    simp_all [TruncateDataset.applyMutator, TruncateMutator.isSetError,
      InsertDataset.applyMutator, InsertMutator.isSetError,
      UpdateDataset.applyMutator, UpdateMutator.isSetError,
      DeleteDataset.applyMutator, DeleteMutator.isSetError]

/-- C1 (witness): the amended theorem applied to concrete builders and
non-`SetError` mutators of each statement kind. -/
theorem C1_witness :
    (((Truncate [.str "users"]).applyMutator .cascade).1 = Truncate [.str "users"])
    ∧ (((newInsertDataset "default" none).applyMutator
        (.cols [.str "a"])).1 = newInsertDataset "default" none)
    ∧ (((newUpdateDataset "default" none).applyMutator
        (.limit 3)).1 = newUpdateDataset "default" none)
    ∧ (((newDeleteDataset "default" none).applyMutator
        .clearWhere).1 = newDeleteDataset "default" none) :=
  ⟨(C1_immutability_besides_setError.1 (Truncate [.str "users"]) .cascade rfl).1,
   (C1_immutability_besides_setError.2.1 (newInsertDataset "default" none)
      (.cols [.str "a"]) rfl).1,
   (C1_immutability_besides_setError.2.2.1 (newUpdateDataset "default" none)
      (.limit 3) rfl).1,
   (C1_immutability_besides_setError.2.2.2 (newDeleteDataset "default" none)
      .clearWhere rfl).1⟩

/-- C2: on a builder whose sticky error is set, every mutator call that
returns normally yields a value carrying that same error, whose `ToSQL`
returns the error with empty SQL text and no parameters, and whose SQL
builder is exactly the fresh builder poisoned with the error — the
dialect's rendering entry point is never reached. -/
theorem C2_sticky_propagation :
    (∀ (td : TruncateDataset) (e : GoError) (m : TruncateMutator)
        (r : TruncateDataset), td.err = some e → (td.applyMutator m).2 = .ok r →
        r.Error = td.Error ∧ r.ToSQL = ("", [], some e)
          ∧ r.truncateSQLBuilder = (NewSQLBuilder r.isPrepared.Bool).SetError e)
    ∧ (∀ (idd : InsertDataset) (e : GoError) (m : InsertMutator)
        (r : InsertDataset), idd.err = some e → (idd.applyMutator m).2 = .ok r →
        r.Error = idd.Error ∧ r.ToSQL = ("", [], some e)
          ∧ r.insertSQLBuilder = (NewSQLBuilder r.isPrepared.Bool).SetError e)
    ∧ (∀ (ud : UpdateDataset) (e : GoError) (m : UpdateMutator)
        (r : UpdateDataset), ud.err = some e → (ud.applyMutator m).2 = .ok r →
        r.Error = ud.Error ∧ r.ToSQL = ("", [], some e)
          ∧ r.updateSQLBuilder = (NewSQLBuilder r.isPrepared.Bool).SetError e)
    ∧ (∀ (dd : DeleteDataset) (e : GoError) (m : DeleteMutator)
        (r : DeleteDataset), dd.err = some e → (dd.applyMutator m).2 = .ok r →
        r.Error = dd.Error ∧ r.ToSQL = ("", [], some e)
          ∧ r.deleteSQLBuilder = (NewSQLBuilder r.isPrepared.Bool).SetError e) := by
  refine ⟨fun td e m r he h => ?_, fun idd e m r he h => ?_,
          fun ud e m r he h => ?_, fun dd e m r he h => ?_⟩
  · have hr := td.applyMutator_ok_err_trunc e m r he h
    exact ⟨by simp [TruncateDataset.Error, hr, he],
           (r.toSQL_of_err_trunc e hr).2, (r.toSQL_of_err_trunc e hr).1⟩
  · have hr := idd.applyMutator_ok_err_ins e m r he h
    exact ⟨by simp [InsertDataset.Error, hr, he],
           (r.toSQL_of_err_ins e hr).2, (r.toSQL_of_err_ins e hr).1⟩
  · have hr := ud.applyMutator_ok_err_upd e m r he h
    exact ⟨by simp [UpdateDataset.Error, hr, he],
           (r.toSQL_of_err_upd e hr).2, (r.toSQL_of_err_upd e hr).1⟩
  · have hr := dd.applyMutator_ok_err_del e m r he h
    exact ⟨by simp [DeleteDataset.Error, hr, he],
           (r.toSQL_of_err_del e hr).2, (r.toSQL_of_err_del e hr).1⟩

/-- C2 (witness): the theorem applied, for each statement kind, to a
concrete erred builder and a concrete mutator call. -/
theorem C2_witness :
    ((((Truncate [.str "t"]).SetError (some (.user "w"))).Cascade).ToSQL
        = ("", [], some (.user "w")))
    ∧ ((((newInsertDataset "default" none).SetError (some (.user "w"))).Cols
        [.str "a"]).ToSQL = ("", [], some (.user "w")))
    ∧ ((((newUpdateDataset "default" none).SetError (some (.user "w"))).LimitAll).ToSQL
        = ("", [], some (.user "w")))
    ∧ ((((newDeleteDataset "default" none).SetError (some (.user "w"))).ClearOrder).ToSQL
        = ("", [], some (.user "w"))) :=
  ⟨(C2_sticky_propagation.1 ((Truncate [.str "t"]).SetError (some (.user "w")))
      (.user "w") .cascade _ (by decide) rfl).2.1,
   (C2_sticky_propagation.2.1 ((newInsertDataset "default" none).SetError
      (some (.user "w"))) (.user "w") (.cols [.str "a"]) _ (by decide) rfl).2.1,
   (C2_sticky_propagation.2.2.1 ((newUpdateDataset "default" none).SetError
      (some (.user "w"))) (.user "w") .limitAll _ (by decide) rfl).2.1,
   (C2_sticky_propagation.2.2.2 ((newDeleteDataset "default" none).SetError
      (some (.user "w"))) (.user "w") .clearOrder _ (by decide) rfl).2.1⟩

/-- C3 (counterexample): the claim quantifies over every builder, but on a
builder that already carries a sticky error `e0`, the chain
`b.SetError(e1).SetError(e2)` reports `e0`, not `e1`: the equation fails
for builders whose error was recorded before the two calls. -/
theorem C3_counterexample :
    ((((Truncate [.str "users"]).SetError (some (.user "e0"))).SetError
        (some (.user "e1"))).SetError (some (.user "e2"))).Error
      ≠ some (.user "e1") := by
  decide

/-- C3 (amended): on a builder with no sticky error yet,
`b.SetError(e1).SetError(e2).Error()` is `e1` for any non-nil `e1`; and on
a builder already carrying an error `e0`, any later `SetError` leaves `e0`
in place — the first recorded error is never overwritten. -/
theorem C3_first_error_wins :
    (∀ (td : TruncateDataset) (e1 e2 : GoError), td.err = none →
        ((td.SetError (some e1)).SetError (some e2)).Error = some e1)
    ∧ (∀ (td : TruncateDataset) (e0 : GoError) (x : Option GoError),
        td.err = some e0 → (td.SetError x).Error = some e0)
    ∧ (∀ (idd : InsertDataset) (e1 e2 : GoError), idd.err = none →
        ((idd.SetError (some e1)).SetError (some e2)).Error = some e1)
    ∧ (∀ (idd : InsertDataset) (e0 : GoError) (x : Option GoError),
        idd.err = some e0 → (idd.SetError x).Error = some e0)
    ∧ (∀ (ud : UpdateDataset) (e1 e2 : GoError), ud.err = none →
        ((ud.SetError (some e1)).SetError (some e2)).Error = some e1)
    ∧ (∀ (ud : UpdateDataset) (e0 : GoError) (x : Option GoError),
        ud.err = some e0 → (ud.SetError x).Error = some e0)
    ∧ (∀ (dd : DeleteDataset) (e1 e2 : GoError), dd.err = none →
        ((dd.SetError (some e1)).SetError (some e2)).Error = some e1)
    ∧ (∀ (dd : DeleteDataset) (e0 : GoError) (x : Option GoError),
        dd.err = some e0 → (dd.SetError x).Error = some e0) := by
  refine ⟨fun td e1 e2 he => ?_, fun td e0 x he => ?_,
          fun idd e1 e2 he => ?_, fun idd e0 x he => ?_,
          fun ud e1 e2 he => ?_, fun ud e0 x he => ?_,
          fun dd e1 e2 he => ?_, fun dd e0 x he => ?_⟩ <;>
    simp [TruncateDataset.SetError, TruncateDataset.Error,
      InsertDataset.SetError, InsertDataset.Error,
      UpdateDataset.SetError, UpdateDataset.Error,
      DeleteDataset.SetError, DeleteDataset.Error, he]

/-- C3 (witness): the amended theorem applied to concrete builders of each
statement kind, in both the no-error and the already-erred situation. -/
theorem C3_witness :
    (((Truncate [.str "t"]).SetError (some (.user "e1"))).SetError
        (some (.user "e2"))).Error = some (.user "e1")
    ∧ ((((Truncate [.str "t"]).SetError (some (.user "e0"))).SetError
        (some (.user "e9"))).Error = some (.user "e0"))
    ∧ (((newInsertDataset "default" none).SetError
        (some (.user "e1"))).SetError (some (.user "e2"))).Error = some (.user "e1")
    ∧ (((newUpdateDataset "default" none).SetError
        (some (.user "e1"))).SetError (some (.user "e2"))).Error = some (.user "e1")
    ∧ (((newDeleteDataset "default" none).SetError
        (some (.user "e1"))).SetError (some (.user "e2"))).Error = some (.user "e1") :=
  ⟨C3_first_error_wins.1 _ (.user "e1") (.user "e2") (by decide),
   C3_first_error_wins.2.1 ((Truncate [.str "t"]).SetError (some (.user "e0")))
     (.user "e0") (some (.user "e9")) (by decide),
   C3_first_error_wins.2.2.1 _ (.user "e1") (.user "e2") rfl,
   C3_first_error_wins.2.2.2.2.1 _ (.user "e1") (.user "e2") rfl,
   C3_first_error_wins.2.2.2.2.2.2.1 _ (.user "e1") (.user "e2") rfl⟩

/-- C4: `FromQuery` on a SELECT inner statement fails with the
dialect-incompatibility panic exactly when the inner dialect is non-default
and differs from the INSERT's dialect; when the inner dialect is the
default, the call succeeds without touching the sticky error, the stored
row source is the inner statement re-dialected to the INSERT's dialect
`P`, and that stored source renders under `P`. -/
theorem C4_dialect_consistency :
    ∀ (idd : InsertDataset) (inner : SelectDataset),
      (idd.FromQuery (.selectDS inner)
          = .error (.dialectMismatch idd.dialect.name inner.dialect.name)
        ↔ inner.dialect ≠ GetDialect "default" ∧ idd.dialect ≠ inner.dialect)
      ∧ (inner.dialect = GetDialect "default" →
          idd.FromQuery (.selectDS inner)
            = .ok (idd.copy (idd.clauses.SetFrom
                    (some (.selectDS { inner with dialect := idd.dialect }))),
                   .selectDS { inner with dialect := idd.dialect })
          ∧ (idd.copy (idd.clauses.SetFrom
                (some (.selectDS { inner with dialect := idd.dialect })))).err = idd.err
          ∧ renderRowSource (.selectDS { inner with dialect := idd.dialect })
              = renderSelectUnder idd.dialect inner.query) := by
  intro idd inner
  constructor
  · by_cases hc : inner.dialect ≠ GetDialect "default" ∧ idd.Dialect ≠ inner.dialect
    · constructor
      · intro _
        exact ⟨hc.1, hc.2⟩
      · intro _
        simp only [InsertDataset.FromQuery]
        rw [if_pos hc]
    · constructor
      · intro h
        exfalso
        simp only [InsertDataset.FromQuery] at h
        rw [if_neg hc] at h
        exact Except.noConfusion h
      · intro hcond
        exact absurd ⟨hcond.1, hcond.2⟩ hc
  · intro hd
    have hc : ¬ (inner.dialect ≠ GetDialect "default" ∧ idd.Dialect ≠ inner.dialect) := by
      intro hcc
      exact hcc.1 hd
    refine ⟨?_, rfl, rfl⟩
    simp only [InsertDataset.FromQuery]
    rw [if_neg hc]

/-- C4 (witness): an INSERT under the `postgres` dialect adopts a
default-dialect inner SELECT, storing it re-dialected to `postgres`. -/
theorem C4_witness :
    ((⟨GetDialect "default", "SELECT 1"⟩ : SelectDataset).dialect
        = GetDialect "default")
    ∧ ((newInsertDataset "postgres" none).FromQuery
          (.selectDS ⟨GetDialect "default", "SELECT 1"⟩)
        = .ok ((newInsertDataset "postgres" none).copy
                ((newInsertDataset "postgres" none).clauses.SetFrom
                  (some (.selectDS
                    { (⟨GetDialect "default", "SELECT 1"⟩ : SelectDataset) with
                        dialect := (newInsertDataset "postgres" none).dialect }))),
               .selectDS { (⟨GetDialect "default", "SELECT 1"⟩ : SelectDataset) with
                             dialect := (newInsertDataset "postgres" none).dialect })
        ∧ ((newInsertDataset "postgres" none).copy
              ((newInsertDataset "postgres" none).clauses.SetFrom
                (some (.selectDS
                  { (⟨GetDialect "default", "SELECT 1"⟩ : SelectDataset) with
                      dialect := (newInsertDataset "postgres" none).dialect })))).err
            = (newInsertDataset "postgres" none).err
        ∧ renderRowSource (.selectDS
              { (⟨GetDialect "default", "SELECT 1"⟩ : SelectDataset) with
                  dialect := (newInsertDataset "postgres" none).dialect })
            = renderSelectUnder (newInsertDataset "postgres" none).dialect "SELECT 1") :=
  ⟨rfl, (C4_dialect_consistency (newInsertDataset "postgres" none)
          ⟨GetDialect "default", "SELECT 1"⟩).2 rfl⟩

/-- C5: `Into`, `Table`, and `From` store a string (parsed to an
identifier) or an accepted expression kind in the clause record and fail
immediately (a panic carrying the distinguishable invalid-argument
sentinel, never a deferred sticky error) on every other argument kind;
`DeleteDataset.From` additionally rejects every non-identifier
expression. -/
theorem C5_argument_validation :
    (∀ (idd : InsertDataset) (e : Expression),
        idd.Into (.expr e) = .ok (idd.copy (idd.clauses.SetInto e)))
    ∧ (∀ (idd : InsertDataset) (s : String),
        idd.Into (.str s) = .ok (idd.copy (idd.clauses.SetInto (ParseIdentifier s))))
    ∧ (∀ (idd : InsertDataset) (n : Int),
        idd.Into (.int n) = .error .unsupportedIntoType)
    ∧ (∀ (idd : InsertDataset) (t : String),
        idd.Into (.other t) = .error .unsupportedIntoType)
    ∧ (∀ (ud : UpdateDataset) (e : Expression),
        ud.Table (.expr e) = .ok (ud.copy (ud.clauses.SetTable e)))
    ∧ (∀ (ud : UpdateDataset) (s : String),
        ud.Table (.str s) = .ok (ud.copy (ud.clauses.SetTable (ParseIdentifier s))))
    ∧ (∀ (ud : UpdateDataset) (n : Int),
        ud.Table (.int n) = .error .unsupportedUpdateTableType)
    ∧ (∀ (ud : UpdateDataset) (t : String),
        ud.Table (.other t) = .error .unsupportedUpdateTableType)
    ∧ (∀ (dd : DeleteDataset) (s : String),
        dd.From (.str s) = .ok (dd.copy (dd.clauses.SetFrom (ParseIdentifier s))))
    ∧ (∀ (dd : DeleteDataset) (n : String),
        dd.From (.expr (.ident n)) = .ok (dd.copy (dd.clauses.SetFrom (.ident n))))
    ∧ (∀ (dd : DeleteDataset) (t : String),
        dd.From (.expr (.literal t)) = .error .badFromArgument)
    ∧ (∀ (dd : DeleteDataset) (t : String),
        dd.From (.expr (.other t)) = .error .badFromArgument)
    ∧ (∀ (dd : DeleteDataset) (n : Int),
        dd.From (.int n) = .error .badFromArgument)
    ∧ (∀ (dd : DeleteDataset) (t : String),
        dd.From (.other t) = .error .badFromArgument) :=
  ⟨fun _ _ => rfl, fun _ _ => rfl, fun _ _ => rfl, fun _ _ => rfl,
   fun _ _ => rfl, fun _ _ => rfl, fun _ _ => rfl, fun _ _ => rfl,
   fun _ _ => rfl, fun _ _ => rfl, fun _ _ => rfl, fun _ _ => rfl,
   fun _ _ => rfl, fun _ _ => rfl⟩

/-- C6: `MustToSQL` panics with exactly the error `ToSQL` would return
when that error is non-nil, and otherwise returns the very same SQL text
and parameter sequence that `ToSQL` returns. -/
theorem C6_mustToSQL_panics_iff_toSQL_errs :
    (∀ td : TruncateDataset,
        td.MustToSQL = match td.ToSQL with
          | (_, _, some e) => .error e
          | (s, p, none) => .ok (s, p))
    ∧ (∀ idd : InsertDataset,
        idd.MustToSQL = match idd.ToSQL with
          | (_, _, some e) => .error e
          | (s, p, none) => .ok (s, p))
    ∧ (∀ ud : UpdateDataset,
        ud.MustToSQL = match ud.ToSQL with
          | (_, _, some e) => .error e
          | (s, p, none) => .ok (s, p))
    ∧ (∀ dd : DeleteDataset,
        dd.MustToSQL = match dd.ToSQL with
          | (_, _, some e) => .error e
          | (s, p, none) => .ok (s, p)) := by
  refine ⟨fun td => ?_, fun idd => ?_, fun ud => ?_, fun dd => ?_⟩
  · unfold TruncateDataset.MustToSQL TruncateDataset.ToSQL
    rcases td.truncateSQLBuilder.ToSQL with ⟨s, p, _ | e⟩ <;> rfl
  · unfold InsertDataset.MustToSQL InsertDataset.ToSQL
    rcases idd.insertSQLBuilder.ToSQL with ⟨s, p, _ | e⟩ <;> rfl
  · unfold UpdateDataset.MustToSQL UpdateDataset.ToSQL
    rcases ud.updateSQLBuilder.ToSQL with ⟨s, p, _ | e⟩ <;> rfl
  · unfold DeleteDataset.MustToSQL DeleteDataset.ToSQL
    rcases dd.deleteSQLBuilder.ToSQL with ⟨s, p, _ | e⟩ <;> rfl

/-- C7: `Limit(n)` with positive `n` stores `n` in the clause record's
limit field, replacing whatever was there; `Limit(0)` leaves the field
absent and coincides with `ClearLimit`. -/
theorem C7_limit_set_or_clear :
    (∀ (ud : UpdateDataset) (n : Nat), 0 < n →
        (ud.Limit n).clauses.limit = some (.num n))
    ∧ (∀ ud : UpdateDataset,
        (ud.Limit 0).clauses.limit = none ∧ ud.Limit 0 = ud.ClearLimit)
    ∧ (∀ (dd : DeleteDataset) (n : Nat), 0 < n →
        (dd.Limit n).clauses.limit = some (.num n))
    ∧ (∀ dd : DeleteDataset,
        (dd.Limit 0).clauses.limit = none ∧ dd.Limit 0 = dd.ClearLimit) := by
  refine ⟨fun ud n hn => ?_, fun ud => ⟨rfl, rfl⟩, fun dd n hn => ?_,
          fun dd => ⟨rfl, rfl⟩⟩
  · simp [UpdateDataset.Limit, hn, UpdateDataset.copy, UpdateClauses.SetLimit]
  · simp [DeleteDataset.Limit, hn, DeleteDataset.copy, DeleteClauses.SetLimit]

/-- C7 (witness): the theorem applied at limit 5 on fresh UPDATE and
DELETE builders. -/
theorem C7_witness :
    (((newUpdateDataset "default" none).Limit 5).clauses.limit = some (.num 5))
    ∧ (((newDeleteDataset "default" none).Limit 5).clauses.limit = some (.num 5)) :=
  ⟨C7_limit_set_or_clear.1 (newUpdateDataset "default" none) 5 (by decide),
   C7_limit_set_or_clear.2.2.1 (newDeleteDataset "default" none) 5 (by decide)⟩

/-- C8: `Cascade()` and `Identity(s)` touch independent option fields, so
the two call orders produce identical builders, and the round-trip
`Truncate("users").Cascade().Identity("restart")` renders, under either
call order, the table name, the CASCADE fragment, and the configured
identity fragment in that fixed order. -/
theorem C8_truncate_cascade_identity_commute :
    (∀ (td : TruncateDataset) (s : String),
        (td.Cascade).Identity s = (td.Identity s).Cascade)
    ∧ (((Truncate [.str "users"]).Cascade).Identity "restart").ToSQL
        = ("TRUNCATE \"users\" CASCADE restart IDENTITY", [], none)
    ∧ (((Truncate [.str "users"]).Identity "restart").Cascade).ToSQL
        = ("TRUNCATE \"users\" CASCADE restart IDENTITY", [], none) :=
  ⟨fun _ _ => rfl, by decide, by decide⟩

/-- C9: `Clone()` produces a value observably identical to the receiver —
same clauses, dialect, prepared flag, sticky error, and the same `ToSQL`
triple. -/
theorem C9_clone_observational_identity :
    (∀ td : TruncateDataset,
        td.Clone.GetClauses = td.GetClauses ∧ td.Clone.Dialect = td.Dialect
        ∧ td.Clone.IsPrepared = td.IsPrepared ∧ td.Clone.Error = td.Error
        ∧ td.Clone.ToSQL = td.ToSQL)
    ∧ (∀ idd : InsertDataset,
        idd.Clone.GetClauses = idd.GetClauses ∧ idd.Clone.Dialect = idd.Dialect
        ∧ idd.Clone.IsPrepared = idd.IsPrepared ∧ idd.Clone.Error = idd.Error
        ∧ idd.Clone.ToSQL = idd.ToSQL)
    ∧ (∀ ud : UpdateDataset,
        ud.Clone.GetClauses = ud.GetClauses ∧ ud.Clone.Dialect = ud.Dialect
        ∧ ud.Clone.IsPrepared = ud.IsPrepared ∧ ud.Clone.Error = ud.Error
        ∧ ud.Clone.ToSQL = ud.ToSQL)
    ∧ (∀ dd : DeleteDataset,
        dd.Clone.GetClauses = dd.GetClauses ∧ dd.Clone.Dialect = dd.Dialect
        ∧ dd.Clone.IsPrepared = dd.IsPrepared ∧ dd.Clone.Error = dd.Error
        ∧ dd.Clone.ToSQL = dd.ToSQL) :=
  ⟨fun _ => ⟨rfl, rfl, rfl, rfl, rfl⟩, fun _ => ⟨rfl, rfl, rfl, rfl, rfl⟩,
   fun _ => ⟨rfl, rfl, rfl, rfl, rfl⟩, fun _ => ⟨rfl, rfl, rfl, rfl, rfl⟩⟩

/-- C10: when `FromQuery` is given a SELECT whose dialect is the default,
it writes the INSERT's dialect through the argument pointer: the caller's
`SelectDataset` value afterwards carries the INSERT's dialect (a visible
change whenever that dialect is not the default), and the clause record
stores that very value rather than a pre-adoption copy. -/
theorem C10_fromQuery_mutates_argument :
    ∀ (idd : InsertDataset) (inner : SelectDataset),
      inner.dialect = GetDialect "default" →
      ∀ (idd2 : InsertDataset) (fr2 : RowSource),
        idd.FromQuery (.selectDS inner) = .ok (idd2, fr2) →
        fr2 = .selectDS { inner with dialect := idd.dialect }
        ∧ idd2.clauses.fromClause = some fr2
        ∧ (idd.dialect ≠ GetDialect "default" → fr2 ≠ .selectDS inner) := by
  intro idd inner hd idd2 fr2 h
  have hc : ¬ (inner.dialect ≠ GetDialect "default" ∧ idd.Dialect ≠ inner.dialect) :=
    fun hcc => hcc.1 hd
  simp only [InsertDataset.FromQuery] at h
  rw [if_neg hc] at h
  injection h with h
  injection h with h1 h2
  refine ⟨h2.symm, ?_, ?_⟩
  · rw [← h1, ← h2]
    rfl
  · intro hne heq
    have hsel := h2.trans heq
    have hdia : idd.dialect = inner.dialect := by
      injection hsel with hsel
      exact congrArg SelectDataset.dialect hsel
    rw [hd] at hdia
    exact hne hdia

/-- C10 (witness): the theorem applied to an INSERT under `postgres` and
an inner SELECT left on the default dialect; the caller's select value
afterwards carries `postgres` and is visibly different from its
pre-call state. -/
theorem C10_witness :
    ((newInsertDataset "postgres" none).FromQuery
        (.selectDS ⟨GetDialect "default", "SELECT 1"⟩)
      = .ok ((newInsertDataset "postgres" none).copy
              ((newInsertDataset "postgres" none).clauses.SetFrom
                (some (.selectDS ⟨GetDialect "postgres", "SELECT 1"⟩))),
             .selectDS ⟨GetDialect "postgres", "SELECT 1"⟩))
    ∧ (RowSource.selectDS ⟨GetDialect "postgres", "SELECT 1"⟩
        = .selectDS { (⟨GetDialect "default", "SELECT 1"⟩ : SelectDataset) with
            dialect := (newInsertDataset "postgres" none).dialect })
    ∧ (((newInsertDataset "postgres" none).copy
          ((newInsertDataset "postgres" none).clauses.SetFrom
            (some (.selectDS ⟨GetDialect "postgres", "SELECT 1"⟩)))).clauses.fromClause
        = some (.selectDS ⟨GetDialect "postgres", "SELECT 1"⟩))
    ∧ (RowSource.selectDS ⟨GetDialect "postgres", "SELECT 1"⟩
        ≠ .selectDS ⟨GetDialect "default", "SELECT 1"⟩) := by
  have h := C10_fromQuery_mutates_argument (newInsertDataset "postgres" none)
      ⟨GetDialect "default", "SELECT 1"⟩ rfl
      ((newInsertDataset "postgres" none).copy
        ((newInsertDataset "postgres" none).clauses.SetFrom
          (some (.selectDS ⟨GetDialect "postgres", "SELECT 1"⟩))))
      (.selectDS ⟨GetDialect "postgres", "SELECT 1"⟩) rfl
  exact ⟨rfl, h.1, h.2.1, h.2.2 (by decide)⟩

end Goqu

example :
    (Goqu.Truncate [.str "users"]).ToSQL = ("TRUNCATE \"users\"", [], none) := by
  decide
